import Mathlib

/-!
Shallow embedding of `examples/weather/weather.py`: a single-loop kiosk that
scrapes a weather summary, reads a BME680 sensor, tracks daily temperature
extremes, and composes a frame for a 128x128 OLED each tick.

Modelling conventions:
* Python floats (temperatures, pressures, `time.time()` values) are `ℚ`.
* A Python exception is `Except.error` carrying a `PyError`; a function that
  returns normally is `Except.ok`.
* PIL image objects are abstracted to their names: the `icons` dictionary maps
  each category name to the image loaded from `icons/<name>.png`, so
  `icons[icon]` is represented by the category string `icon` itself.
* One iteration of the `while True:` loop is the function `tick`; the values
  read by its calls to `time.time()`, `requests.get`, `sensor.get_sensor_data`
  and `datetime` are inputs supplied in a `TickEnv`.
-/

/-- Exceptions the modelled code can raise. -/
inductive PyError where
  | indexError
  | keyError
  | typeError
  | nameError
  deriving DecidableEq, Repr

/-- An `<img>` tag as seen by BeautifulSoup: `alt` is `none` when the
attribute is missing (Python raises `KeyError` on `img["alt"]`). -/
structure ImgTag where
  alt : Option String
  deriving DecidableEq, Repr

/-- A `<span class="currently">` element: `img` is `none` when the element has
no `<img>` descendant (BeautifulSoup returns `None`, and `None["alt"]` raises
`TypeError`). -/
structure SpanTag where
  img : Option ImgTag
  deriving DecidableEq, Repr

/-- An HTTP response as `get_weather` consumes it: the status code, and the
list of elements `soup.find_all("span", "currently")` extracts from the body. -/
structure HTTPResponse where
  status_code : Nat
  currently : List SpanTag
  deriving DecidableEq, Repr

/-- Whitespace splitter on the character list: `acc` holds the current word
reversed. Words are emitted nonempty, runs of whitespace are collapsed. -/
def splitWsAux : List Char → List Char → List String
  | [], acc => if acc.isEmpty then [] else [String.mk acc.reverse]
  | c :: cs, acc =>
    if c.isWhitespace then
      if acc.isEmpty then splitWsAux cs []
      else String.mk acc.reverse :: splitWsAux cs []
    else splitWsAux cs (c :: acc)

/-- Python's `str.split()` with no argument: split on runs of whitespace and
drop empty pieces (so `"".split()` and `"  ".split()` are both `[]`). -/
def pySplit (s : String) : List String :=
  splitWsAux s.toList []

/-- Embedding of `get_weather` (weather.py lines 71-81). On a 200 response it
evaluates `curr[0].img["alt"].split()[0]`, each step of which can raise; on any
other status it returns the still-empty `weather` dict, modelled as
`Except.ok none`. A successful parse returns `Except.ok (some token)`,
modelling the dict `{"summary": token}`. -/
def get_weather (res : HTTPResponse) : Except PyError (Option String) :=
  if res.status_code = 200 then
    match res.currently.head? with
    | none => .error .indexError
    | some tag =>
      match tag.img with
      | none => .error .typeError
      | some img =>
        match img.alt with
        | none => .error .keyError
        | some alt =>
          match (pySplit alt).head? with
          | none => .error .indexError
          | some tok => .ok (some tok)
  else
    .ok none

/-- The `icon_map` dict (weather.py lines 86-93), in insertion order, which is
the iteration order of `for icon in icon_map`. -/
def icon_map : List (String × List String) :=
  [("snow", ["snow", "sleet"]),
   ("rain", ["rain"]),
   ("cloud", ["fog", "cloudy", "partly-cloudy-day", "partly-cloudy-night"]),
   ("sun", ["clear-day", "clear-night"]),
   ("storm", []),
   ("wind", ["wind"])]

/-- Embedding of `get_weather_icon` (weather.py lines 110-122): an empty
weather dict (falsy) yields `None`; otherwise the first category whose token
list contains the summary is returned (its icon image, abstracted to the
category name), and `None` if no category matches. -/
def get_weather_icon (weather : Option String) : Option String :=
  match weather with
  | none => none
  | some summary =>
    (icon_map.find? (fun p => decide (summary ∈ p.2))).map Prod.fst

/-- The thermometer fill computation (weather.py line 209):
`temp_offset = 86 - ((86 - 43) * ((temp - 20) / (32 - 20)))`, unclamped. -/
def temp_offset (temp : ℚ) : ℚ :=
  86 - ((86 - 43) * ((temp - 20) / (32 - 20)))

/-- The same-day extremes update (weather.py lines 178-181): a mutually
exclusive `if temp < low_temp ... elif temp > high_temp ...`, returning the new
`(low_temp, high_temp)` pair. -/
def updateExtremes (low high temp : ℚ) : ℚ × ℚ :=
  if temp < low then (temp, high)
  else if temp > high then (low, temp)
  else (low, high)

/-- The dated extremes update (weather.py lines 177-185): on the same calendar
day defer to `updateExtremes`; on a day change reset `curr_date` to today and
both bounds to the fresh reading. Returns `(curr_date, low_temp, high_temp)`. -/
def updateDay (curr_date : Nat) (low high : ℚ) (today : Nat) (temp : ℚ) :
    Nat × ℚ × ℚ :=
  if today = curr_date then (curr_date, updateExtremes low high temp)
  else (today, temp, temp)

/-- The mutable state the loop carries across iterations. `temp` is the Python
local of the same name: it is only assigned inside the successful-read branch,
so before the first successful in-loop read it is unassigned (`none`) and
reading it at the thermometer line raises `NameError`. -/
structure LoopState where
  weather_icon : Option String
  low_temp : ℚ
  high_temp : ℚ
  curr_date : Nat
  last_checked : ℚ
  temp : Option ℚ
  deriving DecidableEq, Repr

/-- The external values one loop iteration observes: `t_guard` is
`time.time()` at the throttle check (line 161), `resp` the HTTP response the
fetch would receive, `t_after` is `time.time()` after the fetch (line 163),
`sensorRead` is `some (temperature, pressure)` when `sensor.get_sensor_data()`
is truthy and `none` otherwise, `today` is the calendar day at lines 177/183,
and `secs` is `int(time.time())` at the clock blink (line 200). -/
structure TickEnv where
  t_guard : ℚ
  resp : HTTPResponse
  t_after : ℚ
  sensorRead : Option (ℚ × ℚ)
  today : Nat
  secs : Nat
  deriving DecidableEq, Repr

/-- What one composed frame shows: the pasted icon if any, the four numeric
texts (each `none` when the sensor branch was skipped), which clock variant was
drawn (`true` = "HH:MM", `false` = "HH MM"; one of them is always drawn), and
the top y coordinate of the white thermometer fill. -/
structure Frame where
  icon : Option String
  pressText : Option ℚ
  tempText : Option ℚ
  maxText : Option ℚ
  minText : Option ℚ
  clockColon : Bool
  thermoTop : ℚ
  deriving DecidableEq, Repr

/-- The throttle gate of the loop (weather.py lines 161-163): when more than
60 seconds of wall clock passed since `last_checked`, fetch and map the icon
(an exception from `get_weather` propagates) and stamp `last_checked` with the
post-fetch `time.time()`; otherwise keep the current icon and stamp. Returns
the `(weather_icon, last_checked)` pair the rest of the tick uses. -/
def fetchPhase (s : LoopState) (env : TickEnv) :
    Except PyError (Option String × ℚ) :=
  if env.t_guard - s.last_checked > 60 then
    match get_weather env.resp with
    | .error e => .error e
    | .ok w => .ok (get_weather_icon w, env.t_after)
  else .ok (s.weather_icon, s.last_checked)

/-- One iteration of the main loop (weather.py lines 159-215): the throttle
gate (`fetchPhase`), then the sensor branch, which updates extremes and draws
the four texts on a truthy read and draws none of them on a falsy read. The
clock always renders, the thermometer always renders from the current value of
the Python local `temp` (raising `NameError` when it was never assigned), and
`Except.ok` means the frame reached `oled.display`. -/
def tick (s : LoopState) (env : TickEnv) :
    Except PyError (LoopState × Frame) :=
  match fetchPhase s env with
  | .error e => .error e
  | .ok (wi, lc) =>
    match env.sensorRead with
    | some (t, p) =>
      let dlh := updateDay s.curr_date s.low_temp s.high_temp env.today t
      .ok ({ weather_icon := wi, low_temp := dlh.2.1, high_temp := dlh.2.2,
             curr_date := dlh.1, last_checked := lc, temp := some t },
           { icon := wi, pressText := some p, tempText := some t,
             maxText := some dlh.2.2, minText := some dlh.2.1,
             clockColon := decide (env.secs % 2 = 0),
             thermoTop := temp_offset t })
    | none =>
      match s.temp with
      | none => .error PyError.nameError
      | some t0 =>
        .ok ({ s with weather_icon := wi, last_checked := lc },
             { icon := wi, pressText := none, tempText := none,
               maxText := none, minText := none,
               clockColon := decide (env.secs % 2 = 0),
               thermoTop := temp_offset t0 })

/-- Same-day extremes over a whole day: fold the lines 178-181 update over the
day's readings, starting from the initialization `low = high = first reading`
(weather.py lines 152-153 and 184-185). -/
def runDay (t0 : ℚ) (ts : List ℚ) : ℚ × ℚ :=
  ts.foldl (fun lh t => updateExtremes lh.1 lh.2 t) (t0, t0)

/-- The wall-clock throttle of the fetch (weather.py lines 156 and 161-163),
run over a list of ticks: each tick supplies `(g, p)`, the `time.time()` value
at the guard and the one stored into `last_checked` after a fetch. Returns the
guard times of the ticks on which `get_weather` fired. -/
def throttleRun (lc : ℚ) : List (ℚ × ℚ) → List ℚ
  | [] => []
  | (g, p) :: rest =>
    if g - lc > 60 then g :: throttleRun p rest
    else throttleRun lc rest

/-- Wall-clock sanity of a tick sequence: successive `time.time()` samples are
nondecreasing, starting from the initial `last_checked`. -/
def timesMono (t : ℚ) : List (ℚ × ℚ) → Bool
  | [] => true
  | (g, p) :: rest => decide (t ≤ g) && (decide (g ≤ p) && timesMono p rest)

/-! Helper lemmas shared by several claim theorems. -/

/-- Both bounds move so that the reading ends up between them, and the bounds
stay ordered, whenever they start ordered. -/
theorem updateExtremes_bounds (low high t : ℚ) (h : low ≤ high) :
    (updateExtremes low high t).1 ≤ (updateExtremes low high t).2 ∧
    (updateExtremes low high t).1 ≤ t ∧ t ≤ (updateExtremes low high t).2 := by
  unfold updateExtremes
  split_ifs with h1 h2 <;>
    refine ⟨by simp only [not_lt] at *; linarith,
            by simp only [not_lt] at *; linarith,
            by simp only [not_lt] at *; linarith⟩

/-- Folding the same-day update keeps the bounds ordered. -/
theorem runDay_ordered (ts : List ℚ) :
    ∀ lh : ℚ × ℚ, lh.1 ≤ lh.2 →
      (ts.foldl (fun lh t => updateExtremes lh.1 lh.2 t) lh).1 ≤
      (ts.foldl (fun lh t => updateExtremes lh.1 lh.2 t) lh).2 := by
  induction ts with
  | nil => intro lh h; exact h
  | cons t ts ih =>
    intro lh h
    exact ih _ (updateExtremes_bounds lh.1 lh.2 t h).1

/-- C4: the extremes update on a successful same-day reading is mutually
exclusive: for every reading `temp` with `low ≤ high`, if `temp < low` only the
low bound becomes `temp` (high unchanged); otherwise if `temp > high` only the
high bound becomes `temp` (low unchanged); otherwise both are unchanged — the
`if`/`elif` never applies both comparisons to one reading. -/
theorem extremes_update_mutually_exclusive (low high temp : ℚ)
    (h : low ≤ high) :
    (temp < low → updateExtremes low high temp = (temp, high)) ∧
    (¬ temp < low → high < temp → updateExtremes low high temp = (low, temp)) ∧
    (¬ temp < low → ¬ high < temp →
      updateExtremes low high temp = (low, high)) := by
  unfold updateExtremes
  refine ⟨fun h1 => by rw [if_pos h1],
          fun h1 h2 => by rw [if_neg h1, if_pos h2],
          fun h1 h2 => by rw [if_neg h1, if_neg h2]⟩

/-- Witness for C4: a new low only lowers the low bound, a new high only raises
the high bound, an in-range reading changes nothing. -/
theorem extremes_update_mutually_exclusive_witness :
    updateExtremes 20 25 18 = (18, 25) ∧
    updateExtremes 20 25 30 = (20, 30) ∧
    updateExtremes 20 25 22 = (20, 25) :=
  ⟨(extremes_update_mutually_exclusive 20 25 18 (by norm_num)).1 (by norm_num),
   (extremes_update_mutually_exclusive 20 25 30 (by norm_num)).2.1
     (by norm_num) (by norm_num),
   (extremes_update_mutually_exclusive 20 25 22 (by norm_num)).2.2
     (by norm_num) (by norm_num)⟩

/-- C5: after every successful same-day sensor read the invariant
`low ≤ current temperature ≤ high` holds: starting from the initialization
`low = high = first reading` and after any same-day history `ts`, one more
reading `t` leaves bounds that enclose `t`. -/
theorem daily_extremes_invariant (t0 : ℚ) (ts : List ℚ) (t : ℚ) :
    (updateExtremes (runDay t0 ts).1 (runDay t0 ts).2 t).1 ≤ t ∧
    t ≤ (updateExtremes (runDay t0 ts).1 (runDay t0 ts).2 t).2 := by
  have hord : (runDay t0 ts).1 ≤ (runDay t0 ts).2 :=
    runDay_ordered ts (t0, t0) le_rfl
  have hb := updateExtremes_bounds (runDay t0 ts).1 (runDay t0 ts).2 t hord
  exact ⟨hb.2.1, hb.2.2⟩

/-- C6: on the first successful read after the calendar day changes, both
extremes reset to that reading and the stored day becomes today, regardless of
the prior bounds. -/
theorem day_rollover_resets (curr_date : Nat) (low high : ℚ) (today : Nat)
    (temp : ℚ) (h : today ≠ curr_date) :
    updateDay curr_date low high today temp = (today, temp, temp) := by
  unfold updateDay
  rw [if_neg h]

/-- Witness for C6: a day change from 10 to 11 resets bounds (20, 25) to the
fresh reading 22. -/
theorem day_rollover_resets_witness :
    updateDay 10 20 25 11 22 = (11, 22, 22) :=
  day_rollover_resets 10 20 25 11 22 (by norm_num)

/-- C8: the thermometer fill top is the unclamped linear interpolation
`86 - 43 * (temp - 20) / 12`: 20 degrees gives y = 86 (empty), 32 gives
y = 43 (full), 26 gives y = 64.5, and temperatures outside [20, 32] land
beyond the bar rectangle on the respective side. -/
theorem thermometer_interpolation :
    (∀ t : ℚ, temp_offset t = 86 - 43 * (t - 20) / 12) ∧
    temp_offset 20 = 86 ∧ temp_offset 32 = 43 ∧ temp_offset 26 = 129 / 2 ∧
    (∀ t : ℚ, t < 20 → 86 < temp_offset t) ∧
    (∀ t : ℚ, 32 < t → temp_offset t < 43) := by
  refine ⟨fun t => by unfold temp_offset; ring,
          by norm_num [temp_offset],
          by norm_num [temp_offset],
          by norm_num [temp_offset],
          fun t ht => ?_, fun t ht => ?_⟩ <;>
    · have heq : temp_offset t = 86 - 43 / 12 * (t - 20) := by
        unfold temp_offset; ring
      rw [heq]
      linarith

/-- Witness for C8: a reading below the reference range overshoots the bar
bottom, one above it overshoots the bar top. -/
theorem thermometer_interpolation_witness :
    86 < temp_offset 19 ∧ temp_offset 33 < 43 :=
  ⟨thermometer_interpolation.2.2.2.2.1 19 (by norm_num),
   thermometer_interpolation.2.2.2.2.2 33 (by norm_num)⟩

/-- C9: every token listed in the icon map is sent to its category, and every
summary token listed in no category yields no icon. -/
theorem icon_map_lookup :
    get_weather_icon (some "snow") = some "snow" ∧
    get_weather_icon (some "sleet") = some "snow" ∧
    get_weather_icon (some "rain") = some "rain" ∧
    get_weather_icon (some "fog") = some "cloud" ∧
    get_weather_icon (some "cloudy") = some "cloud" ∧
    get_weather_icon (some "partly-cloudy-day") = some "cloud" ∧
    get_weather_icon (some "partly-cloudy-night") = some "cloud" ∧
    get_weather_icon (some "clear-day") = some "sun" ∧
    get_weather_icon (some "clear-night") = some "sun" ∧
    get_weather_icon (some "wind") = some "wind" ∧
    (∀ s : String, (∀ p ∈ icon_map, s ∉ p.2) →
      get_weather_icon (some s) = none) := by
  refine ⟨rfl, rfl, rfl, rfl, rfl, rfl, rfl, rfl, rfl, rfl, fun s h => ?_⟩
  have hnone : icon_map.find? (fun p => decide (s ∈ p.2)) = none :=
    List.find?_eq_none.mpr (fun p hp => by simp [h p hp])
  simp [get_weather_icon, hnone]

/-- Witness for C9: the unmapped token "hail" yields no icon. -/
theorem icon_map_lookup_witness : get_weather_icon (some "hail") = none :=
  icon_map_lookup.2.2.2.2.2.2.2.2.2.2 "hail" (by decide)

/-- C10: the storm category is unreachable — whatever summary token the
mapping is given, the icon it returns is never the storm icon, because the
storm entry of `icon_map` lists no tokens. -/
theorem storm_icon_unreachable (w : Option String) (c : String)
    (h : get_weather_icon w = some c) : c ≠ "storm" := by
  cases w with
  | none => simp [get_weather_icon] at h
  | some s =>
    simp only [get_weather_icon] at h
    cases hf : icon_map.find? (fun p => decide (s ∈ p.2)) with
    | none => rw [hf] at h; simp at h
    | some p =>
      rw [hf] at h
      simp at h
      have hpred := List.find?_some hf
      have hmem := List.mem_of_find?_eq_some hf
      subst h
      simp only [icon_map, List.mem_cons, List.not_mem_nil, or_false] at hmem
      rcases hmem with rfl | rfl | rfl | rfl | rfl | rfl <;>
        simp_all

/-- Witness for C10: the token "snow" maps to the snow icon, which is not the
storm icon. -/
theorem storm_icon_unreachable_witness :
    get_weather_icon (some "snow") = some "snow" ∧ ("snow" : String) ≠ "storm" :=
  ⟨rfl, storm_icon_unreachable (some "snow") "snow" rfl⟩

/-- Counterexample to C2: a 200 response whose body has no element with the
"currently" class makes `get_weather` raise (`curr[0]` is an `IndexError` on
the empty result of `find_all`), instead of yielding an empty snapshot. -/
theorem get_weather_parse_failure_raises :
    get_weather ⟨200, []⟩ = .error PyError.indexError := rfl

/-- C2 as amended: a non-200 response yields the empty snapshot without
raising, but a 200 response with no "currently" element raises an
`IndexError` rather than yielding an empty snapshot. -/
theorem get_weather_status_behavior (res : HTTPResponse) :
    (res.status_code ≠ 200 → get_weather res = .ok none) ∧
    (res.status_code = 200 → res.currently = [] →
      get_weather res = .error PyError.indexError) := by
  constructor
  · intro h
    unfold get_weather
    rw [if_neg h]
  · intro h hc
    unfold get_weather
    rw [if_pos h, hc]
    rfl

/-- Witness for the amended C2: a 404 yields the empty snapshot, a bodyless
200 raises. -/
theorem get_weather_status_behavior_witness :
    get_weather ⟨404, []⟩ = .ok none ∧
    get_weather ⟨500, [⟨none⟩]⟩ = .ok none ∧
    get_weather ⟨200, []⟩ = .error PyError.indexError :=
  ⟨(get_weather_status_behavior ⟨404, []⟩).1 (by norm_num),
   (get_weather_status_behavior ⟨500, [⟨none⟩]⟩).1 (by norm_num),
   (get_weather_status_behavior ⟨200, []⟩).2 rfl rfl⟩

/-- A later start time keeps a monotone tick sequence monotone. -/
theorem timesMono_weaken (lc p : ℚ) (h : lc ≤ p) :
    ∀ rest : List (ℚ × ℚ), timesMono p rest = true → timesMono lc rest = true := by
  intro rest hm
  cases rest with
  | nil => rfl
  | cons gp rest' =>
    obtain ⟨g1, p1⟩ := gp
    simp only [timesMono, Bool.and_eq_true, decide_eq_true_eq] at hm ⊢
    exact ⟨le_trans h hm.1, hm.2⟩

/-- Every fetch fired by the throttle happens more than 60 seconds after the
`last_checked` stamp the run started from. -/
theorem throttleRun_lower_bound (envs : List (ℚ × ℚ)) :
    ∀ lc : ℚ, timesMono lc envs = true →
      ∀ x ∈ throttleRun lc envs, lc + 60 < x := by
  induction envs with
  | nil =>
    intro lc _ x hx
    simp [throttleRun] at hx
  | cons gp rest ih =>
    obtain ⟨g, p⟩ := gp
    intro lc hm x hx
    simp only [timesMono, Bool.and_eq_true, decide_eq_true_eq] at hm
    obtain ⟨h1, h2, h3⟩ := hm
    by_cases hf : g - lc > 60
    · simp only [throttleRun, if_pos hf] at hx
      rcases List.mem_cons.mp hx with rfl | hx'
      · linarith
      · have := ih p h3 x hx'
        linarith
    · simp only [throttleRun, if_neg hf] at hx
      exact ih lc (timesMono_weaken lc p (le_trans h1 h2) rest h3) x hx

/-- C7: the weather fetch fires at most once per 60 seconds of wall clock,
regardless of tick rate: over any run of loop ticks with nondecreasing
`time.time()` samples, every pair of ticks on which the fetch fired has guard
times more than 60 seconds apart. -/
theorem weather_throttle (lc : ℚ) (envs : List (ℚ × ℚ))
    (h : timesMono lc envs = true) :
    List.Pairwise (fun a b => 60 < b - a) (throttleRun lc envs) := by
  induction envs generalizing lc with
  | nil => simp [throttleRun]
  | cons gp rest ih =>
    obtain ⟨g, p⟩ := gp
    simp only [timesMono, Bool.and_eq_true, decide_eq_true_eq] at h
    obtain ⟨h1, h2, h3⟩ := h
    by_cases hf : g - lc > 60
    · simp only [throttleRun, if_pos hf]
      refine List.Pairwise.cons (fun x hx => ?_) (ih p h3)
      have := throttleRun_lower_bound rest p h3 x hx
      linarith
    · simp only [throttleRun, if_neg hf]
      exact ih lc (timesMono_weaken lc p (le_trans h1 h2) rest h3)

/-- Witness for C7: three ticks starting from `last_checked = 0`; the fetch
fires at guard times 61 and 130 only (the tick at 100 is throttled), and the
fired times are pairwise more than 60 seconds apart. -/
theorem weather_throttle_witness :
    timesMono 0 [(61, 62), (100, 100), (130, 131)] = true ∧
    List.Pairwise (fun a b => 60 < b - a)
      (throttleRun 0 [(61, 62), (100, 100), (130, 131)]) ∧
    throttleRun 0 [(61, 62), (100, 100), (130, 131)] = [61, 130] :=
  ⟨by norm_num [timesMono],
   weather_throttle 0 [(61, 62), (100, 100), (130, 131)]
     (by norm_num [timesMono]),
   by norm_num [throttleRun]⟩

/-- When the fetch does not raise (or the gate does not fire at all), the
throttle phase returns some icon and stamp. -/
theorem fetchPhase_ok (s : LoopState) (env : TickEnv)
    (hw : env.t_guard - s.last_checked > 60 →
      ∃ w, get_weather env.resp = .ok w) :
    ∃ wi lc, fetchPhase s env = .ok (wi, lc) := by
  unfold fetchPhase
  by_cases hf : env.t_guard - s.last_checked > 60
  · rw [if_pos hf]
    obtain ⟨w, hwk⟩ := hw hf
    rw [hwk]
    exact ⟨_, _, rfl⟩
  · rw [if_neg hf]
    exact ⟨_, _, rfl⟩

/-- C1 as amended: on a tick where the refresh fires and the fetch returns the
empty snapshot, the weather icon is not retained — both the stored icon and
the icon on that tick's frame become `none` (the empty snapshot maps to no
icon, and line 162 overwrites `weather_icon` with it). -/
theorem failed_refresh_clears_icon (s : LoopState) (env : TickEnv)
    (s' : LoopState) (f : Frame)
    (hfire : env.t_guard - s.last_checked > 60)
    (hempty : get_weather env.resp = .ok none)
    (hrun : tick s env = .ok (s', f)) :
    s'.weather_icon = none ∧ f.icon = none := by
  have hfp : fetchPhase s env = .ok (none, env.t_after) := by
    unfold fetchPhase
    rw [if_pos hfire, hempty]
    rfl
  unfold tick at hrun
  rw [hfp] at hrun
  cases hsr : env.sensorRead with
  | some tp =>
    obtain ⟨t, p⟩ := tp
    rw [hsr] at hrun
    simp only [Except.ok.injEq, Prod.mk.injEq] at hrun
    obtain ⟨hs, hf2⟩ := hrun
    subst hs
    subst hf2
    exact ⟨rfl, rfl⟩
  | none =>
    rw [hsr] at hrun
    cases ht : s.temp with
    | none =>
      rw [ht] at hrun
      simp at hrun
    | some t0 =>
      rw [ht] at hrun
      simp only [Except.ok.injEq, Prod.mk.injEq] at hrun
      obtain ⟨hs, hf2⟩ := hrun
      subst hs
      subst hf2
      exact ⟨rfl, rfl⟩

/-- Witness for the amended C1: a firing refresh answered by a 500 response
leaves both the stored and the drawn icon empty. -/
theorem failed_refresh_clears_icon_witness :
    ((70 : ℚ) - 0 > 60) ∧ get_weather ⟨500, []⟩ = Except.ok none ∧
    ((⟨none, 18, 24, 10, 71, some 21⟩ : LoopState).weather_icon = none ∧
     (⟨none, some 990, some 21, some 24, some 18, false,
        temp_offset 21⟩ : Frame).icon = none) :=
  ⟨by norm_num, rfl,
   failed_refresh_clears_icon
     ⟨some "cloud", 18, 24, 10, 0, some 21⟩
     ⟨70, ⟨500, []⟩, 71, some (21, 990), 10, 7⟩
     ⟨none, 18, 24, 10, 71, some 21⟩
     ⟨none, some 990, some 21, some 24, some 18, false, temp_offset 21⟩
     (by norm_num) rfl
     (by norm_num [tick, fetchPhase, get_weather, get_weather_icon,
        updateDay, updateExtremes])⟩

/-- Counterexample to C1: a tick whose refresh fires against a 404 response.
Before the tick the displayed icon is the sun icon; the frame composed on that
tick (and the stored icon) carry no icon at all, so the previously displayed
icon is not left in place. -/
theorem failed_refresh_counterexample :
    (⟨some "sun", 20, 25, 10, 0, some 22⟩ : LoopState).weather_icon
        = some "sun" ∧
    tick ⟨some "sun", 20, 25, 10, 0, some 22⟩
        ⟨100, ⟨404, []⟩, 101, some (22, 1000), 10, 4⟩
      = .ok (⟨none, 20, 25, 10, 101, some 22⟩,
             ⟨none, some 1000, some 22, some 25, some 20, true,
              temp_offset 22⟩) :=
  ⟨rfl, by norm_num [tick, fetchPhase, get_weather, get_weather_icon,
     updateDay, updateExtremes]⟩

/-- C3 as amended: on a tick whose sensor read fails, provided some earlier
tick completed a successful read (the Python local `temp` is assigned) and the
refresh on this tick does not itself raise, the tick completes without
raising: none of temperature, pressure, max or min is drawn, the extremes and
stored day are unchanged, the clock and the current (possibly stale) icon
still render, the thermometer shows the stale temperature, and the frame is
pushed. -/
theorem sensor_failure_tick_renders (s : LoopState) (env : TickEnv) (t0 : ℚ)
    (htemp : s.temp = some t0)
    (hsensor : env.sensorRead = none)
    (hw : env.t_guard - s.last_checked > 60 →
      ∃ w, get_weather env.resp = .ok w) :
    ∃ s' f, tick s env = .ok (s', f) ∧
      f.tempText = none ∧ f.pressText = none ∧ f.maxText = none ∧
      f.minText = none ∧ s'.low_temp = s.low_temp ∧
      s'.high_temp = s.high_temp ∧ s'.curr_date = s.curr_date ∧
      s'.temp = s.temp ∧ f.icon = s'.weather_icon ∧
      f.clockColon = decide (env.secs % 2 = 0) ∧
      f.thermoTop = temp_offset t0 := by
  obtain ⟨wi, lc, hfp⟩ := fetchPhase_ok s env hw
  refine ⟨{ s with weather_icon := wi, last_checked := lc },
          { icon := wi, pressText := none, tempText := none, maxText := none,
            minText := none, clockColon := decide (env.secs % 2 = 0),
            thermoTop := temp_offset t0 }, ?_,
          rfl, rfl, rfl, rfl, rfl, rfl, rfl, htemp.symm ▸ rfl, rfl, rfl, rfl⟩
  unfold tick
  rw [hfp, hsensor, htemp]

/-- Witness for the amended C3: a throttled tick with a failed sensor read
still produces a frame with clock, stale icon and stale thermometer level. -/
theorem sensor_failure_tick_renders_witness :
    (⟨some "sun", 20, 25, 10, 0, some 22⟩ : LoopState).temp = some 22 ∧
    (⟨50, ⟨404, []⟩, 51, none, 10, 5⟩ : TickEnv).sensorRead = none ∧
    (∃ s' f, tick ⟨some "sun", 20, 25, 10, 0, some 22⟩
          ⟨50, ⟨404, []⟩, 51, none, 10, 5⟩ = .ok (s', f) ∧
      f.tempText = none ∧ f.pressText = none ∧ f.maxText = none ∧
      f.minText = none ∧ s'.low_temp = 20 ∧
      s'.high_temp = 25 ∧ s'.curr_date = 10 ∧
      s'.temp = some 22 ∧ f.icon = s'.weather_icon ∧
      f.clockColon = decide (5 % 2 = 0) ∧
      f.thermoTop = temp_offset 22) :=
  ⟨rfl, rfl,
   sensor_failure_tick_renders
     ⟨some "sun", 20, 25, 10, 0, some 22⟩
     ⟨50, ⟨404, []⟩, 51, none, 10, 5⟩ 22 rfl rfl
     (fun h => absurd h (by norm_num))⟩

/-- Counterexample to C3: if the very first in-loop sensor read fails, the
tick raises `NameError` — the Python local `temp` was never assigned, yet the
thermometer line reads it unconditionally — so the tick does not complete and
no frame is pushed. -/
theorem first_tick_sensor_failure_raises :
    tick ⟨some "sun", 20, 25, 10, 0, none⟩ ⟨50, ⟨404, []⟩, 51, none, 10, 5⟩
      = .error PyError.nameError := by
  norm_num [tick, fetchPhase]
